import Mathlib

/-!
Verification development for the `Github_Scraping` repository
(`src/github_scraping.py`).

The crawler is shallowly embedded: every HTTP interaction is abstracted by a
pure environment (`Env`) that maps a request (URL plus credential header) to
the response the remote provider would give, and the recursive directory walk
`parse_contents` is made total with an explicit fuel parameter (`none` means
the Python recursion has not terminated within the given depth).  Committer
dates are modelled as naturals ordered like the ISO-8601 strings the code
parses (e.g. 2022-11-01 becomes 20221101), so the fixed cutoff
`datetime(2022, 11, 1)` becomes the constant `gptCutoff = 20221101`.
Console `print` calls that carry information used for control-flow auditing
(error messages, "TOO MANY COMMITS", the rate-limit message) are modelled as
`Event.log` entries; `time.sleep` is modelled as `Event.sleep`; the cosmetic
per-file progress marker `print('|')` and the rate-limit status dumps are not
modelled.  Python's `\d` is modelled as the ASCII digits, and `str.lower`
as ASCII lower-casing, which agree on every string the claims mention.
String manipulation is done on the underlying character lists by structural
recursion so that every definition evaluates inside the kernel.
-/

instance {ε α : Type} [DecidableEq ε] [DecidableEq α] : DecidableEq (Except ε α) :=
  fun a b =>
    match a, b with
    | Except.ok x, Except.ok y => decidable_of_iff (x = y) (by simp)
    | Except.error x, Except.error y => decidable_of_iff (x = y) (by simp)
    | Except.ok _, Except.error _ => Decidable.isFalse (by simp)
    | Except.error _, Except.ok _ => Decidable.isFalse (by simp)

/-- ASCII lower-casing of one character (model of `str.lower` on the
characters appearing in paths). -/
def asciiLowerChar (c : Char) : Char :=
  if 'A' ≤ c ∧ c ≤ 'Z' then Char.ofNat (c.toNat + 32) else c

/-- ASCII lower-casing of a string. -/
def asciiLower (s : String) : String :=
  String.mk (s.data.map asciiLowerChar)

/-- Final path segment: Python `curpath.rsplit('/', 1)[-1]`, i.e. whatever
follows the last `/` (the whole string when there is no `/`). -/
def lastSegment (s : String) : String :=
  String.mk ((s.data.reverse.takeWhile (fun c => c ≠ '/')).reverse)

/-- Python `re.match(r'^venv\d+$', s)`: the whole string is `venv` followed
by one or more digits. -/
def venvNumMatch (s : String) : Bool :=
  match s.data with
  | 'v' :: 'e' :: 'n' :: 'v' :: rest => !rest.isEmpty && rest.all (fun c => c.isDigit)
  | _ => false

/-- Python `re.match(r'^env\d+$', s)`: the whole string is `env` followed by
one or more digits. -/
def envNumMatch (s : String) : Bool :=
  match s.data with
  | 'e' :: 'n' :: 'v' :: rest => !rest.isEmpty && rest.all (fun c => c.isDigit)
  | _ => false

/-- `ignore_dir` from `fetch_files` (src/github_scraping.py lines 112-120):
lower-case the final path segment; ignore when it is in the configured
denylist or matches `^venv\d+$` or `^env\d+$`. -/
def ignore_dir (ignore_filedir : List String) (curpath : String) : Bool :=
  let lower_path := asciiLower (lastSegment curpath)
  if ignore_filedir.contains lower_path then true
  else if venvNumMatch lower_path then true
  else if envNumMatch lower_path then true
  else false

/-- The module-level denylist configured at src/github_scraping.py line 269. -/
def ignore_filedir : List String :=
  ["venv", ".git", ".idea", "__pycache__", "image", "images", "lib", "libs", "env", "img"]

/-- `get_next_header` (src/github_scraping.py lines 105-108): `popleft` the
front of the header deque, `append` it at the back, and return the popped
element.  The deque is never empty in the program (one entry per token), so
the `[]` case is junk that is never reached. -/
def get_next_header : List String → String × List String
  | [] => ("", [])
  | h :: t => (h, t ++ [h])

/-- `chunk_index_size = 4` (src/github_scraping.py line 223). -/
def chunk_index_size : Nat := 4

/-- Python `range(0, n, step)` for a positive step: the multiples of `step`
below `n`.  (For `step = 0` Python raises `ValueError`; callers model that
case separately.) -/
def rangeStep (n step : Nat) : List Nat :=
  (List.range ((n + step - 1) / step)).map (fun k => k * step)

/-- The chunk construction of `github_scraping` (src/github_scraping.py
lines 224-225): `chunk_size = int(len(repos)/4)` and
`chunks = [repos[i:i+chunk_size] for i in range(0, len(repos), chunk_size)]`.
When `chunk_size` is zero, `range` raises `ValueError` (modelled as
`Except.error`). -/
def make_chunks {α : Type} (repos : List α) : Except String (List (List α)) :=
  let chunk_size := repos.length / chunk_index_size
  if chunk_size = 0 then Except.error "ValueError: range() arg 3 must not be zero"
  else Except.ok ((rangeStep repos.length chunk_size).map
    (fun i => (repos.drop i).take chunk_size))

/-- The repositories actually visited by the batch loop
`for chunk_index in range(chunk_index_size): ... chunks[chunk_index]`
(src/github_scraping.py lines 229-234): the concatenation of the first four
chunks.  Indexing past the end of `chunks` would raise `IndexError`. -/
def processed_repositories {α : Type} (repos : List α) : Except String (List α) :=
  match make_chunks repos with
  | Except.error e => Except.error e
  | Except.ok chunks =>
    if chunk_index_size ≤ chunks.length then Except.ok (chunks.take chunk_index_size).flatten
    else Except.error "IndexError: list index out of range"

/-- Python `name.endswith(ext)` (src/github_scraping.py line 151), computed
on character lists so it evaluates inside the kernel. -/
def strEndsWith (s suffixStr : String) : Bool :=
  List.isPrefixOf suffixStr.data.reverse s.data.reverse

/-- The fixed cutoff `datetime(2022, 11, 1)` of src/github_scraping.py
line 188, in the `YYYYMMDD` numeric encoding of committer dates. -/
def gptCutoff : Nat := 20221101

/-- Status line of an HTTP response together with the `X-RateLimit-Reset`
header read by `error403` (`none` when the header is absent). -/
structure HttpMeta where
  status : Nat
  reset : Option Int
deriving DecidableEq, Repr

/-- One entry of a directory-listing response: the fields of `item` read by
`parse_contents` (src/github_scraping.py lines 146-153, 216-217). -/
structure Item where
  path : String
  type : String
  name : String
  download_url : String
  url : String
deriving DecidableEq, Repr

/-- One entry of a commit-list response: `cur_commit['sha']` and the
committer date `cur_commit['commit']['committer']['date']` (already parsed
into the numeric encoding). -/
structure Commit where
  sha : String
  date : Nat
deriving DecidableEq, Repr

/-- The dictionary appended to `py_files` (src/github_scraping.py
lines 179-185 and 205-211). -/
structure FileRecord where
  content : String
  timestamp : Nat
  file_path : String
  repo_name : String
  repo_url : String
deriving DecidableEq, Repr

/-- Observable side effects of the crawl: a `print`ed message or a
`time.sleep` of the given number of seconds. -/
inductive Event where
  | log (msg : String)
  | sleep (seconds : Nat)
deriving DecidableEq, Repr

/-- Outcome of the commit-history loop of `parse_contents`
(src/github_scraping.py lines 169-215) for one file:
`ok` resumes the enclosing listing loop with an optional emitted record,
`abortListing` is an early `return` from `parse_contents` (non-200 ref
fetch), and `throttle` is a 403 from the ref-qualified content fetch, which
triggers `error403`. -/
inductive SelResult where
  | ok (rec : Option FileRecord) (events : List Event)
  | abortListing (events : List Event)
  | throttle (reset : Option Int) (events : List Event)
deriving DecidableEq, Repr

/-- The run parameters of `github_scraping` that the crawler closes over. -/
structure Config where
  afterGPT : Bool
  file_extension : List String
  ignore_filedir : List String
  repo_name : String
  repo_url : String

/-- The remote provider, as a pure oracle from request (endpoint plus
credential header) to response.  `listing` answers the directory-listing
GET of `parse_contents`; `fileContent` the raw `download_url` GET;
`commits` the commit-list GET for a file path; `refContent` the
ref-qualified contents GET for (path, sha), whose payload is `some text`
when the base64 body decodes as UTF-8 and `none` when decoding raises
`UnicodeDecodeError`.  `now` models `time.time()`. -/
structure Env where
  now : Int
  listing : String → String → HttpMeta × List Item
  fileContent : String → String → HttpMeta × String
  commits : String → String → HttpMeta × List Commit
  refContent : String → String → String → HttpMeta × Option String

/-- `wait_time` computed by `error403` (src/github_scraping.py
lines 126-130): reset header minus current time plus one, or the nominal
60 when the header is missing.  Only used in the printed message. -/
def waitTime (reset : Option Int) (now : Int) : Int :=
  match reset with
  | some r => r - now + 1
  | none => 60

/-- The message printed by `error403` (src/github_scraping.py line 131). -/
def rateLimitMsg (hdr : String) (wait : Int) : String :=
  "Rate limit exceeded for " ++ hdr ++ ". need to wait for " ++ toString wait ++
    " seconds. will wait 60 seconds and try next header"

/-- Message of src/github_scraping.py line 143. -/
def errContentsMsg (repo_name : String) (st : Nat) : String :=
  "Error fetching contents for " ++ repo_name ++ ": " ++ toString st

/-- Message of src/github_scraping.py line 162. -/
def errFileMsg (download_url : String) (st : Nat) : String :=
  "Error fetching file for " ++ download_url ++ ": " ++ toString st

/-- Message of src/github_scraping.py line 165. -/
def errCommitMsg (download_url : String) (st : Nat) : String :=
  "Error fetching commit for " ++ download_url ++ ": " ++ toString st

/-- Message of src/github_scraping.py line 196. -/
def errRefFileMsg (path sha : String) (st : Nat) : String :=
  "Error fetching current commit file for " ++ path ++ "?ref=" ++ sha ++ ": " ++ toString st

/-- Message of src/github_scraping.py line 203. -/
def errDecodeMsg (path sha : String) : String :=
  "Error decoding file for " ++ path ++ "?ref=" ++ sha

/-- Message of src/github_scraping.py line 215. -/
def tooManyMsg : String := "TOO MANY COMMITS"

/-- The commit-history loop of `parse_contents` (src/github_scraping.py
lines 169-215).  `file_path` is `item['path']`, `currentText` is
`file_response.text`, `fetchRef` is the ref-qualified contents GET already
specialised to this path and header, and `find` is the mutable flag of
line 169.  In after-GPT mode the first commit's timestamp is taken with the
current content and the loop breaks; otherwise the loop scans for the first
commit strictly before `gptCutoff`, fetches that revision, skips the commit
on `UnicodeDecodeError` (`continue`), and emits on success (`break`).
After a completed loop, `TOO MANY COMMITS` is printed when no commit
qualified (line 214-215). -/
def commit_scan (cfg : Config) (file_path currentText : String)
    (fetchRef : String → HttpMeta × Option String) :
    List Commit → Bool → SelResult
  | [], find =>
    if !cfg.afterGPT && !find then SelResult.ok none [Event.log tooManyMsg]
    else SelResult.ok none []
  | c :: rest, find =>
    if cfg.afterGPT then
      SelResult.ok (some { content := currentText, timestamp := c.date,
                           file_path := file_path, repo_name := cfg.repo_name,
                           repo_url := cfg.repo_url }) []
    else if c.date < gptCutoff then
      let rr := fetchRef c.sha
      if rr.1.status = 403 then SelResult.throttle rr.1.reset []
      else if rr.1.status ≠ 200 then
        SelResult.abortListing [Event.log (errRefFileMsg file_path c.sha rr.1.status)]
      else
        match rr.2 with
        | none =>
          match commit_scan cfg file_path currentText fetchRef rest true with
          | SelResult.ok r evs => SelResult.ok r (Event.log (errDecodeMsg file_path c.sha) :: evs)
          | SelResult.abortListing evs =>
            SelResult.abortListing (Event.log (errDecodeMsg file_path c.sha) :: evs)
          | SelResult.throttle reset evs =>
            SelResult.throttle reset (Event.log (errDecodeMsg file_path c.sha) :: evs)
        | some data =>
          SelResult.ok (some { content := data, timestamp := c.date,
                               file_path := file_path, repo_name := cfg.repo_name,
                               repo_url := cfg.repo_url }) []
    else commit_scan cfg file_path currentText fetchRef rest find

/-- Result of one `parse_contents` call: the records it appended to the
shared `py_files`, the events it printed/slept, and the header deque as the
call leaves it. -/
def PCOut : Type := List FileRecord × List Event × List String

/-- `error403` (src/github_scraping.py lines 125-135): print the rate-limit
message with the computed `wait_time`, `time.sleep(3)`, rotate the header
deque with `get_next_header`, and re-issue the same URL as a fresh
`parse_contents` call (here `recurse`), whose appended records become this
branch's records. -/
def error403 (env : Env) (recurse : String → List String → String → Option PCOut)
    (url : String) (q : List String) (reset : Option Int) (hdr : String) : Option PCOut :=
  match recurse url (get_next_header q).2 (get_next_header q).1 with
  | none => none
  | some (recs, evs, q2) =>
    some (recs, Event.log (rateLimitMsg hdr (waitTime reset env.now)) :: Event.sleep 3 :: evs, q2)

/-- The `for item in items` loop of `parse_contents` (src/github_scraping.py
lines 146-217), with `recurse` standing for the recursive `parse_contents`
calls (directory descent and the retry issued by `error403`).  `url` is the
listing URL of the enclosing `parse_contents` call, which `error403`
re-issues.  A Python `return` inside the loop shows up as answering without
touching the remaining items; a `continue` as recursing into the tail. -/
def processItemsAux (cfg : Config) (env : Env)
    (recurse : String → List String → String → Option PCOut)
    (url : String) : List Item → List String → String → Option PCOut
  | [], q, _ => some ([], [], q)
  | item :: rest, q, hdr =>
    if ignore_dir cfg.ignore_filedir item.path then
      processItemsAux cfg env recurse url rest q hdr
    else if item.type == "file" && cfg.file_extension.any (fun ext => strEndsWith item.name ext) then
      let fr := env.fileContent item.download_url hdr
      let cr := env.commits item.path hdr
      if fr.1.status = 403 then error403 env recurse url q fr.1.reset hdr
      else if cr.1.status = 403 then error403 env recurse url q cr.1.reset hdr
      else if fr.1.status ≠ 200 then
        some ([], [Event.log (errFileMsg item.download_url fr.1.status)], q)
      else if cr.1.status ≠ 200 then
        some ([], [Event.log (errCommitMsg item.download_url cr.1.status)], q)
      else
        match commit_scan cfg item.path fr.2 (fun sha => env.refContent item.path sha hdr)
            cr.2 false with
        | SelResult.ok rec evs =>
          match processItemsAux cfg env recurse url rest q hdr with
          | none => none
          | some (recs2, evs2, q2) => some (rec.toList ++ recs2, evs ++ evs2, q2)
        | SelResult.abortListing evs => some ([], evs, q)
        | SelResult.throttle reset evs =>
          match error403 env recurse url q reset hdr with
          | none => none
          | some (recs2, evs2, q2) => some (recs2, evs ++ evs2, q2)
    else if item.type == "dir" then
      match recurse item.url q hdr with
      | none => none
      | some (recs1, evs1, q1) =>
        match processItemsAux cfg env recurse url rest q1 hdr with
        | none => none
        | some (recs2, evs2, q2) => some (recs1 ++ recs2, evs1 ++ evs2, q2)
    else processItemsAux cfg env recurse url rest q hdr

/-- `parse_contents` (src/github_scraping.py lines 137-217), made total with
fuel: `none` means the Python recursion is still running after descending
`fuel` nested calls (the recursion has no built-in bound).  A 403 on the
listing GET goes through `error403`; any other non-200 prints and returns;
a 200 processes the items. -/
def parse_contents (cfg : Config) (env : Env) :
    Nat → String → List String → String → Option PCOut
  | 0, _, _, _ => none
  | fuel + 1, url, q, hdr =>
    if (env.listing url hdr).1.status = 403 then
      error403 env (parse_contents cfg env fuel) url q (env.listing url hdr).1.reset hdr
    else if (env.listing url hdr).1.status ≠ 200 then
      some ([], [Event.log (errContentsMsg cfg.repo_name (env.listing url hdr).1.status)], q)
    else
      processItemsAux cfg env (parse_contents cfg env fuel) url (env.listing url hdr).2 q hdr

/-- `fetch_files` (src/github_scraping.py lines 99-221): start the walk at
the repository's contents endpoint with the initial header
`header_queue[-1]` (the last element of the deque, line 110). -/
def fetch_files (cfg : Config) (env : Env) (fuel : Nat) (contents_url : String)
    (q : List String) : Option PCOut :=
  parse_contents cfg env fuel contents_url q (q.getLastD "")

/-- The per-chunk batch loop of `github_scraping` (src/github_scraping.py
lines 229-253) with the per-repository walk abstracted as `walk`: each
element of the result is the record list flushed to one
`{file_name}_chunk{i}.parquet` file. -/
def github_scraping_chunks {α : Type} (walk : α → List FileRecord) (repos : List α) :
    Except String (List (List FileRecord)) :=
  match make_chunks repos with
  | Except.error e => Except.error e
  | Except.ok chunks =>
    if chunk_index_size ≤ chunks.length then
      Except.ok ((chunks.take chunk_index_size).map (fun chunk => (chunk.map walk).flatten))
    else Except.error "IndexError: list index out of range"

/-- Concrete run configuration in after-GPT mode, with the module-level
extensions and denylist of src/github_scraping.py lines 266-269 (used by
concrete witnesses below). -/
def exampleConfigAfter : Config :=
  { afterGPT := true, file_extension := [".py", ".ipynb"], ignore_filedir := ignore_filedir,
    repo_name := "octo/demo", repo_url := "https://github.com/octo/demo" }

/-- The same run configuration in before-GPT mode. -/
def exampleConfigBefore : Config :=
  { afterGPT := false, file_extension := [".py", ".ipynb"], ignore_filedir := ignore_filedir,
    repo_name := "octo/demo", repo_url := "https://github.com/octo/demo" }

/-- A listing entry whose raw-content fetch will fail with HTTP 500 in
`envTwoFiles`. -/
def fileA : Item :=
  { path := "a.py", type := "file", name := "a.py", download_url := "dlA", url := "uA" }

/-- A listing entry that fetches cleanly in `envTwoFiles`. -/
def fileB : Item :=
  { path := "b.py", type := "file", name := "b.py", download_url := "dlB", url := "uB" }

/-- A provider with two directory listings over the same two files: under
`root` the failing file comes first, under `root2` the healthy file comes
first.  Every commit list has one commit. -/
def envTwoFiles : Env :=
  { now := 0
    listing := fun u _ =>
      if u == "root" then ({ status := 200, reset := none }, [fileA, fileB])
      else if u == "root2" then ({ status := 200, reset := none }, [fileB, fileA])
      else ({ status := 200, reset := none }, [])
    fileContent := fun u _ =>
      if u == "dlA" then ({ status := 500, reset := none }, "")
      else ({ status := 200, reset := none }, "print(1)")
    commits := fun _ _ => ({ status := 200, reset := none }, [{ sha := "s1", date := 20230101 }])
    refContent := fun _ _ _ => ({ status := 200, reset := none }, none) }

/-- A provider that answers every directory-listing request, under every
credential, with HTTP 403 and no reset header. -/
def envThrottled : Env :=
  { now := 0
    listing := fun _ _ => ({ status := 403, reset := none }, [])
    fileContent := fun _ _ => ({ status := 200, reset := none }, "")
    commits := fun _ _ => ({ status := 200, reset := none }, [])
    refContent := fun _ _ _ => ({ status := 200, reset := none }, none) }

/-- A ref-qualified contents oracle that always succeeds with body "old". -/
def refFetchOld : String → HttpMeta × Option String := fun _ =>
  ({ status := 200, reset := none }, some "old")

/-- A ref-qualified contents oracle where commit `s2` hits a
`UnicodeDecodeError` and commit `s3` decodes to "old". -/
def refFetchMix : String → HttpMeta × Option String := fun sha =>
  if sha == "s2" then ({ status := 200, reset := none }, none)
  else if sha == "s3" then ({ status := 200, reset := none }, some "old")
  else ({ status := 200, reset := none }, some "cur")

/-- Concatenating the slices at offsets `0, cs, ..., (m-1)*cs` of a list
recovers its prefix of length `m * cs`. -/
theorem flatten_range_slices {α : Type} (l : List α) (cs : Nat) (m : Nat) :
    ((List.range m).map (fun k => (l.drop (k * cs)).take cs)).flatten = l.take (m * cs) := by
  induction m with
  | zero => simp
  | succ n ih =>
    rw [List.range_succ, List.map_append, List.flatten_append, ih]
    simp [Nat.succ_mul, List.take_add]

/-- With slice size `n / 4` and at least four elements, the slicing of
`make_chunks` produces at least four slices, so `chunks[0..3]` never raises
`IndexError`. -/
theorem chunkCount_ge_four (n : Nat) (h : 4 ≤ n) :
    4 ≤ (n + n / 4 - 1) / (n / 4) := by
  have hcs : 1 ≤ n / 4 := by omega
  have hmul : n / 4 * 4 ≤ n := Nat.div_mul_le_self n 4
  exact (Nat.le_div_iff_mul_le hcs).mpr (by omega)

/-- For four or more repositories the batch loop visits exactly the first
`4 * (length / 4)` repositories, in order. -/
theorem processed_take {α : Type} (repos : List α) (h : 4 ≤ repos.length) :
    processed_repositories repos = Except.ok (repos.take (4 * (repos.length / 4))) := by
  have hL : 4 ≤ (repos.length + repos.length / 4 - 1) / (repos.length / 4) :=
    chunkCount_ge_four repos.length h
  unfold processed_repositories make_chunks rangeStep chunk_index_size
  rw [if_neg (by omega)]
  simp only [List.map_map, List.length_map, List.length_range]
  rw [if_pos hL]
  rw [← List.map_take, List.take_range, Nat.min_eq_left hL]
  rw [show ((fun i => (repos.drop i).take (repos.length / 4)) ∘ fun k => k * (repos.length / 4))
        = fun k => (repos.drop (k * (repos.length / 4))).take (repos.length / 4) from rfl]
  rw [flatten_range_slices]

/-- Commits whose date is not strictly before the cutoff are passed over by
the scan loop without any effect, whatever the `find` flag. -/
theorem commit_scan_skip (cfg : Config) (fp txt : String)
    (fetchRef : String → HttpMeta × Option String) (rest : List Commit) (find : Bool)
    (hA : cfg.afterGPT = false) :
    ∀ pre : List Commit, (∀ x ∈ pre, ¬ x.date < gptCutoff) →
      commit_scan cfg fp txt fetchRef (pre ++ rest) find =
        commit_scan cfg fp txt fetchRef rest find := by
  intro pre
  induction pre with
  | nil => simp
  | cons x xs ih =>
    intro h
    have hx : ¬ x.date < gptCutoff := h x (by simp)
    have hxs : ∀ y ∈ xs, ¬ y.date < gptCutoff := fun y hy => h y (by simp [hy])
    rw [List.cons_append]
    simp only [commit_scan, hA, Bool.false_eq_true, if_false, hx, if_neg hx]
    exact ih hxs

/-- C1 (counterexample): on the claim's own example N = 10, the processed
chunks cover only the first eight repositories, so two repositories are
dropped and the claimed exactly-once coverage fails. -/
theorem C1_counterexample :
    processed_repositories (List.range 10) = Except.ok [0, 1, 2, 3, 4, 5, 6, 7] ∧
    processed_repositories (List.range 10) ≠ Except.ok (List.range 10) := by decide

/-- C1 (amended): for N ≥ 4 repositories the Batch Runner cuts the list into
contiguous slices of size `N / 4` and processes only the first four of
them, i.e. exactly the first `4 * (N / 4)` repositories in original order,
each once; every repository is covered exactly once precisely when 4
divides N, and otherwise the trailing `N mod 4` repositories are dropped. -/
theorem C1_amended (α : Type) (repos : List α) (h : 4 ≤ repos.length) :
    processed_repositories repos = Except.ok (repos.take (4 * (repos.length / 4))) ∧
    (repos.length % 4 = 0 → processed_repositories repos = Except.ok repos) := by
  refine ⟨processed_take repos h, fun hmod => ?_⟩
  rw [processed_take repos h, show 4 * (repos.length / 4) = repos.length by omega,
    List.take_length]

/-- C1 (witness): with twelve repositories the processed chunks are the
whole list. -/
theorem C1_witness :
    processed_repositories (List.range 12) = Except.ok (List.range 12) :=
  (C1_amended Nat (List.range 12) (by decide)).2 (by decide)

/-- C2: the throttling (HTTP 403) protocol logs a wait time of
`reset - now + 1`, or the nominal 60 when the reset header is absent, but
always sleeps exactly 3 seconds, rotates the credential deque, and
re-issues the same directory-listing URL as a fresh recursive call (both
for a 403 on the listing itself and for a 403 on a file's raw-content
fetch); and since no retry bound exists, a provider that returns 403 under
every credential makes the recursion exceed every depth. -/
theorem C2_thm :
    (∀ now : Int, waitTime none now = 60) ∧
    (∀ r now : Int, waitTime (some r) now = r - now + 1) ∧
    (∀ (cfg : Config) (env : Env) (fuel : Nat) (url : String) (q : List String) (hdr : String),
        (env.listing url hdr).1.status = 403 →
        parse_contents cfg env (fuel + 1) url q hdr =
          error403 env (parse_contents cfg env fuel) url q (env.listing url hdr).1.reset hdr) ∧
    (∀ (cfg : Config) (env : Env) (recurse : String → List String → String → Option PCOut)
        (url : String) (item : Item) (rest : List Item) (q : List String) (hdr : String),
        ignore_dir cfg.ignore_filedir item.path = false →
        (item.type == "file" && cfg.file_extension.any fun ext => strEndsWith item.name ext)
          = true →
        (env.fileContent item.download_url hdr).1.status = 403 →
        processItemsAux cfg env recurse url (item :: rest) q hdr =
          error403 env recurse url q (env.fileContent item.download_url hdr).1.reset hdr) ∧
    (∀ (env : Env) (recurse : String → List String → String → Option PCOut)
        (url : String) (q : List String) (reset : Option Int) (hdr : String),
        error403 env recurse url q reset hdr =
          match recurse url (get_next_header q).2 (get_next_header q).1 with
          | none => none
          | some (recs, evs, q2) =>
            some (recs, Event.log (rateLimitMsg hdr (waitTime reset env.now)) ::
              Event.sleep 3 :: evs, q2)) ∧
    (∀ (cfg : Config) (env : Env) (url : String) (q : List String) (hdr : String),
        (∀ h : String, (env.listing url h).1.status = 403) →
        ∀ fuel : Nat, parse_contents cfg env fuel url q hdr = none) := by
  refine ⟨fun now => rfl, fun r now => rfl, ?_, ?_, fun env recurse url q reset hdr => rfl, ?_⟩
  · intro cfg env fuel url q hdr h
    simp only [parse_contents]
    rw [if_pos h]
  · intro cfg env recurse url item rest q hdr hig hfile h403
    simp only [processItemsAux, hig, Bool.false_eq_true, if_false, hfile, if_true]
    rw [if_pos h403]
  · intro cfg env url q hdr hall fuel
    induction fuel generalizing q hdr with
    | zero => rfl
    | succ n ih =>
      simp only [parse_contents]
      rw [if_pos (hall hdr)]
      simp only [error403, ih]

/-- C2 (witness): under a provider that always throttles, no fuel suffices
for the walk to terminate. -/
theorem C2_witness :
    parse_contents exampleConfigAfter envThrottled 7 "u" ["h1", "h2"] "h1" = none :=
  C2_thm.2.2.2.2.2 exampleConfigAfter envThrottled "u" ["h1", "h2"] "h1" (fun _ => rfl) 7

/-- C3: the path filter is a total function of the lower-cased final path
segment; it accepts exactly the configured denylist and the
venv/env-digits patterns; and it classifies the four claimed examples as
claimed. -/
theorem C3_thm :
    (∀ (deny : List String) (p q : String),
        asciiLower (lastSegment p) = asciiLower (lastSegment q) →
        ignore_dir deny p = ignore_dir deny q) ∧
    (∀ p : String, ignore_dir ignore_filedir p = true ↔
        (asciiLower (lastSegment p) ∈ ignore_filedir ∨
          venvNumMatch (asciiLower (lastSegment p)) = true ∨
          envNumMatch (asciiLower (lastSegment p)) = true)) ∧
    ignore_dir ignore_filedir "A/B/VENV3" = true ∧
    ignore_dir ignore_filedir "a/b/venv3" = true ∧
    ignore_dir ignore_filedir "a/b/venv" = true ∧
    ignore_dir ignore_filedir "a/b/venv3x" = false := by
  refine ⟨?_, ?_, by decide, by decide, by decide, by decide⟩
  · intro deny p q h
    simp only [ignore_dir]
    rw [h]
  · intro p
    simp only [ignore_dir]
    by_cases h1 : ignore_filedir.contains (asciiLower (lastSegment p)) = true
    · simp [h1, List.elem_iff.mp h1]
    · by_cases h2 : venvNumMatch (asciiLower (lastSegment p)) = true
      · simp [h1, h2]
      · by_cases h3 : envNumMatch (asciiLower (lastSegment p)) = true
        · simp [h1, h2, h3]
        · simp [h1, h2, h3, List.elem_iff]

/-- C3 (witness): the filter agrees on `A/B/VENV3` and `a/b/venv3`. -/
theorem C3_witness :
    ignore_dir ignore_filedir "A/B/VENV3" = ignore_dir ignore_filedir "a/b/venv3" :=
  C3_thm.1 ignore_filedir "A/B/VENV3" "a/b/venv3" (by decide)

/-- C4 (counterexample): on the deque `[a, b, c]`, `get_next_header`
returns `a` (the rotated-out old front, now at the back) while the new
front is `b`, refuting the claim that rotation returns the new front. -/
theorem C4_counterexample :
    (get_next_header ["a", "b", "c"]).1 = "a" ∧
    ((get_next_header ["a", "b", "c"]).2).headD "" = "b" ∧
    (get_next_header ["a", "b", "c"]).1 ≠ ((get_next_header ["a", "b", "c"]).2).headD "" := by
  decide

/-- C4 (amended): on a non-empty deque, rotation removes the front
credential, appends it to the back, and returns that removed credential;
consequently three successive rotations of a 3-credential deque return the
three credentials exactly once, restore the original deque, and a fourth
rotation returns the same credential as the first. -/
theorem C4_amended :
    (∀ (h : String) (t : List String), get_next_header (h :: t) = (h, t ++ [h])) ∧
    (∀ a b c : String,
      [(get_next_header [a, b, c]).1,
        (get_next_header ((get_next_header [a, b, c]).2)).1,
        (get_next_header ((get_next_header ((get_next_header [a, b, c]).2)).2)).1] = [a, b, c] ∧
      (get_next_header ((get_next_header ((get_next_header [a, b, c]).2)).2)).2 = [a, b, c] ∧
      (get_next_header
        ((get_next_header ((get_next_header ((get_next_header [a, b, c]).2)).2)).2)).1 = a) := by
  refine ⟨fun h t => rfl, fun a b c => ?_⟩
  simp [get_next_header]

/-- C5: in before-cutoff mode, when the commits not strictly before the
cutoff are followed by a first qualifying commit whose historical revision
fetches with 200 and decodes, the selector emits exactly one record
carrying that revision's decoded content and that commit's date, and never
looks at the remaining (older) commits. -/
theorem C5_thm (cfg : Config) (fp txt d : String)
    (fetchRef : String → HttpMeta × Option String) (pre post : List Commit) (c : Commit)
    (hA : cfg.afterGPT = false)
    (hpre : ∀ x ∈ pre, ¬ x.date < gptCutoff)
    (hc : c.date < gptCutoff)
    (hst : (fetchRef c.sha).1.status = 200)
    (hdec : (fetchRef c.sha).2 = some d) :
    commit_scan cfg fp txt fetchRef (pre ++ c :: post) false =
      SelResult.ok (some { content := d, timestamp := c.date, file_path := fp,
                           repo_name := cfg.repo_name, repo_url := cfg.repo_url }) [] := by
  rw [commit_scan_skip cfg fp txt fetchRef (c :: post) false hA pre hpre]
  simp [commit_scan, hA, hc, hst, hdec]

/-- C5 (witness): with dates 2023-01-01, 2022-06-01, 2021-01-01 and cutoff
2022-11-01, the selected commit is 2022-06-01, not 2021-01-01. -/
theorem C5_witness :
    commit_scan exampleConfigBefore "f.py" "cur" refFetchOld
      [⟨"s1", 20230101⟩, ⟨"s2", 20220601⟩, ⟨"s3", 20210101⟩] false =
      SelResult.ok (some { content := "old", timestamp := 20220601, file_path := "f.py",
                           repo_name := "octo/demo",
                           repo_url := "https://github.com/octo/demo" }) [] :=
  C5_thm exampleConfigBefore "f.py" "cur" "old" refFetchOld
    [⟨"s1", 20230101⟩] [⟨"s3", 20210101⟩] ⟨"s2", 20220601⟩
    rfl (by decide) (by decide) rfl rfl

/-- C6: in after-cutoff mode, any non-empty commit list makes the selector
emit exactly one record with the current file content and the first (most
recent) commit's date, ignoring the rest of the list. -/
theorem C6_thm (cfg : Config) (fp txt : String)
    (fetchRef : String → HttpMeta × Option String) (c : Commit) (rest : List Commit)
    (hA : cfg.afterGPT = true) :
    commit_scan cfg fp txt fetchRef (c :: rest) false =
      SelResult.ok (some { content := txt, timestamp := c.date, file_path := fp,
                           repo_name := cfg.repo_name, repo_url := cfg.repo_url }) [] := by
  simp [commit_scan, hA]

/-- C6 (witness): a two-commit list yields the newest commit's date with
the current content. -/
theorem C6_witness :
    commit_scan exampleConfigAfter "f.py" "cur" refFetchOld
      [⟨"s1", 20230101⟩, ⟨"s2", 20220601⟩] false =
      SelResult.ok (some { content := "cur", timestamp := 20230101, file_path := "f.py",
                           repo_name := "octo/demo",
                           repo_url := "https://github.com/octo/demo" }) [] :=
  C6_thm exampleConfigAfter "f.py" "cur" refFetchOld ⟨"s1", 20230101⟩ [⟨"s2", 20220601⟩] rfl

/-- C7: in before-cutoff mode, when every commit's date is at or after the
cutoff, the selector emits no record and only prints the TOO MANY COMMITS
observability message. -/
theorem C7_thm (cfg : Config) (fp txt : String)
    (fetchRef : String → HttpMeta × Option String) (commits : List Commit)
    (hA : cfg.afterGPT = false)
    (h : ∀ c ∈ commits, gptCutoff ≤ c.date) :
    commit_scan cfg fp txt fetchRef commits false =
      SelResult.ok none [Event.log tooManyMsg] := by
  have h2 : ∀ c ∈ commits, ¬ c.date < gptCutoff := fun c hc => not_lt.mpr (h c hc)
  have := commit_scan_skip cfg fp txt fetchRef [] false hA commits h2
  rw [List.append_nil] at this
  rw [this]
  simp [commit_scan, hA]

/-- C7 (witness): dates 2023-01-01 and 2022-11-01 (the cutoff itself, not
strictly earlier) produce no record and the message. -/
theorem C7_witness :
    commit_scan exampleConfigBefore "f.py" "cur" refFetchOld
      [⟨"s1", 20230101⟩, ⟨"s2", 20221101⟩] false =
      SelResult.ok none [Event.log tooManyMsg] :=
  C7_thm exampleConfigBefore "f.py" "cur" refFetchOld [⟨"s1", 20230101⟩, ⟨"s2", 20221101⟩]
    rfl (by decide)

/-- C8 (counterexample): in `envTwoFiles` the same two files are listed in
both orders; when the HTTP-500 file comes first, zero records come back —
the healthy second entry of the listing is never processed — although the
listing with the healthy file first does yield its record. -/
theorem C8_counterexample :
    (parse_contents exampleConfigAfter envTwoFiles 1 "root" ["t"] "t").map (fun o => o.1)
      = some [] ∧
    (parse_contents exampleConfigAfter envTwoFiles 1 "root2" ["t"] "t").map (fun o => o.1)
      = some [{ content := "print(1)", timestamp := 20230101, file_path := "b.py",
                repo_name := "octo/demo", repo_url := "https://github.com/octo/demo" }] := by
  decide

/-- C8 (amended): a non-200/non-403 status from a file's content or commit
endpoint aborts the whole current directory listing: the failure is only
logged, no record is emitted for that file, and the remaining entries of
that listing are skipped (the result does not depend on them); traversal
continues elsewhere in the sense that a parent listing combines a
subdirectory's partial results and still processes its own remaining
entries. -/
theorem C8_amended :
    (∀ (cfg : Config) (env : Env) (recurse : String → List String → String → Option PCOut)
        (url : String) (item : Item) (rest : List Item) (q : List String) (hdr : String),
        ignore_dir cfg.ignore_filedir item.path = false →
        (item.type == "file" && cfg.file_extension.any fun ext => strEndsWith item.name ext)
          = true →
        (env.fileContent item.download_url hdr).1.status ≠ 403 →
        (env.commits item.path hdr).1.status ≠ 403 →
        (env.fileContent item.download_url hdr).1.status ≠ 200 →
        processItemsAux cfg env recurse url (item :: rest) q hdr =
          some ([], [Event.log (errFileMsg item.download_url
            (env.fileContent item.download_url hdr).1.status)], q)) ∧
    (∀ (cfg : Config) (env : Env) (recurse : String → List String → String → Option PCOut)
        (url : String) (item : Item) (rest : List Item) (q : List String) (hdr : String),
        ignore_dir cfg.ignore_filedir item.path = false →
        (item.type == "file" && cfg.file_extension.any fun ext => strEndsWith item.name ext)
          = true →
        (env.fileContent item.download_url hdr).1.status = 200 →
        (env.commits item.path hdr).1.status ≠ 403 →
        (env.commits item.path hdr).1.status ≠ 200 →
        processItemsAux cfg env recurse url (item :: rest) q hdr =
          some ([], [Event.log (errCommitMsg item.download_url
            (env.commits item.path hdr).1.status)], q)) ∧
    (∀ (cfg : Config) (env : Env) (recurse : String → List String → String → Option PCOut)
        (url : String) (item : Item) (rest : List Item) (q : List String) (hdr : String)
        (recs1 recs2 : List FileRecord) (evs1 evs2 : List Event) (q1 q2 : List String),
        ignore_dir cfg.ignore_filedir item.path = false →
        item.type = "dir" →
        recurse item.url q hdr = some (recs1, evs1, q1) →
        processItemsAux cfg env recurse url rest q1 hdr = some (recs2, evs2, q2) →
        processItemsAux cfg env recurse url (item :: rest) q hdr =
          some (recs1 ++ recs2, evs1 ++ evs2, q2)) := by
  refine ⟨?_, ?_, ?_⟩
  · intro cfg env recurse url item rest q hdr hig hfile h403 hc403 h200
    simp only [processItemsAux, hig, Bool.false_eq_true, if_false, hfile, if_true]
    rw [if_neg h403, if_neg hc403, if_pos h200]
  · intro cfg env recurse url item rest q hdr hig hfile h200 hc403 hc200
    simp only [processItemsAux, hig, Bool.false_eq_true, if_false, hfile, if_true]
    rw [if_neg (by rw [h200]; decide), if_neg hc403, if_neg (by rw [h200]; exact fun hh => hh rfl),
      if_pos hc200]
  · intro cfg env recurse url item rest q hdr recs1 recs2 evs1 evs2 q1 q2 hig htype hrec hrest
    simp only [processItemsAux, hig, Bool.false_eq_true, if_false, htype]
    rw [show (("dir" : String) == "file") = false from rfl]
    simp only [Bool.false_and, Bool.false_eq_true, if_false]
    rw [show (("dir" : String) == "dir") = true from rfl]
    simp only [if_true, hrec, hrest]

/-- C8 (witness): a listing holding only the HTTP-500 file produces no
record and one error log, leaving the deque untouched. -/
theorem C8_witness :
    processItemsAux exampleConfigAfter envTwoFiles (fun _ _ _ => none) "root" [fileA] ["t"] "t" =
      some ([], [Event.log (errFileMsg "dlA" 500)], ["t"]) :=
  C8_amended.1 exampleConfigAfter envTwoFiles (fun _ _ _ => none) "root" fileA [] ["t"] "t"
    (by decide) (by decide) (by decide) (by decide) (by decide)

/-- C9: in before-cutoff mode a qualifying commit whose blob fails UTF-8
decoding is skipped with only a log line: the scan continues past it (and
past further non-qualifying commits) to the next qualifying commit, and if
that one decodes, its record is emitted — the decode failure is not
fatal. -/
theorem C9_thm (cfg : Config) (fp txt d : String)
    (fetchRef : String → HttpMeta × Option String) (pre mid post : List Commit) (c c2 : Commit)
    (hA : cfg.afterGPT = false)
    (hpre : ∀ x ∈ pre, ¬ x.date < gptCutoff)
    (hc : c.date < gptCutoff)
    (hst : (fetchRef c.sha).1.status = 200)
    (hdec : (fetchRef c.sha).2 = none)
    (hmid : ∀ x ∈ mid, ¬ x.date < gptCutoff)
    (hc2 : c2.date < gptCutoff)
    (hst2 : (fetchRef c2.sha).1.status = 200)
    (hdec2 : (fetchRef c2.sha).2 = some d) :
    commit_scan cfg fp txt fetchRef (pre ++ c :: (mid ++ c2 :: post)) false =
      SelResult.ok (some { content := d, timestamp := c2.date, file_path := fp,
                           repo_name := cfg.repo_name, repo_url := cfg.repo_url })
        [Event.log (errDecodeMsg fp c.sha)] := by
  rw [commit_scan_skip cfg fp txt fetchRef (c :: (mid ++ c2 :: post)) false hA pre hpre]
  have inner : commit_scan cfg fp txt fetchRef (mid ++ c2 :: post) true =
      SelResult.ok (some { content := d, timestamp := c2.date, file_path := fp,
                           repo_name := cfg.repo_name, repo_url := cfg.repo_url }) [] := by
    rw [commit_scan_skip cfg fp txt fetchRef (c2 :: post) true hA mid hmid]
    simp [commit_scan, hA, hc2, hst2, hdec2]
  simp [commit_scan, hA, hc, hst, hdec, inner]

/-- C9 (witness): commit s2 (2022-06-01) fails to decode, so the scan
continues to s3 (2021-01-01), which is emitted. -/
theorem C9_witness :
    commit_scan exampleConfigBefore "f.py" "cur" refFetchMix
      [⟨"s1", 20230101⟩, ⟨"s2", 20220601⟩, ⟨"s3", 20210101⟩] false =
      SelResult.ok (some { content := "old", timestamp := 20210101, file_path := "f.py",
                           repo_name := "octo/demo",
                           repo_url := "https://github.com/octo/demo" })
        [Event.log (errDecodeMsg "f.py" "s2")] :=
  C9_thm exampleConfigBefore "f.py" "cur" "old" refFetchMix
    [⟨"s1", 20230101⟩] [] [] ⟨"s2", 20220601⟩ ⟨"s3", 20210101⟩
    rfl (by decide) (by decide) rfl rfl (by decide) (by decide) rfl rfl

/-- C10: a repository list with fewer than four elements makes the chunk
size zero and the slicing step raise ValueError before any repository is
walked or any chunk flushed, whereas four or more elements always produce
exactly four flushed chunks. -/
theorem C10_thm :
    (∀ (α : Type) (walk : α → List FileRecord) (repos : List α), repos.length < 4 →
        github_scraping_chunks walk repos =
          Except.error "ValueError: range() arg 3 must not be zero") ∧
    (∀ (α : Type) (walk : α → List FileRecord) (repos : List α), 4 ≤ repos.length →
        ∃ flushes, github_scraping_chunks walk repos = Except.ok flushes ∧
          flushes.length = 4) := by
  constructor
  · intro α walk repos h
    unfold github_scraping_chunks make_chunks chunk_index_size
    rw [if_pos (by omega)]
  · intro α walk repos h
    have hL : 4 ≤ (repos.length + repos.length / 4 - 1) / (repos.length / 4) :=
      chunkCount_ge_four repos.length h
    unfold github_scraping_chunks make_chunks rangeStep chunk_index_size
    rw [if_neg (by omega)]
    simp only [List.map_map, List.length_map, List.length_range]
    rw [if_pos hL]
    exact ⟨_, rfl, by
      simp only [List.length_map, List.length_take, List.length_map, List.length_range]
      omega⟩

/-- C10 (witness): a three-repository run halts with ValueError. -/
theorem C10_witness :
    github_scraping_chunks (fun _ : Nat => ([] : List FileRecord)) [1, 2, 3] =
      Except.error "ValueError: range() arg 3 must not be zero" :=
  C10_thm.1 Nat (fun _ => []) [1, 2, 3] (by decide)
